import Mathlib

/-!
Shallow embedding of the swap-coordinator test harness
(`src/bin/peerswap.rs` and `src/main.rs`) and proofs about it.

External collaborators (the `docker exec … lightning-cli` / `elements-cli`
calls, the bitcoind RPC client, the filesystem, the RNG) are modelled as
oracle parameters: each embedded function takes the responses the external
world would give it and is otherwise a faithful translation of the Rust
control flow.  Rust `Result<T>` becomes `Except String T`; a `panic!`
(`assert_eq!`) is modelled as an `Except.error` since both abort the run
abnormally with a message.
-/

namespace Peerswap

/-- Model of `serde_json::Value`.  Numbers are modelled as unbounded
integers carrying the `i64`/`u64` payloads the harness reads
(`as_i64`/`as_u64`); the float accessors are not needed by the embedded
functions. -/
inductive Json where
  | null : Json
  | bool : Bool → Json
  | num : Int → Json
  | str : String → Json
  | arr : List Json → Json
  | obj : List (String × Json) → Json

/-- `value[key]` for a string key: field lookup on an object, `Null` when
the key is absent or the value is not an object (serde_json's `Index`
impl). -/
def Json.get (j : Json) (key : String) : Json :=
  match j with
  | .obj fields =>
    match fields.find? (fun f => f.fst == key) with
    | some f => f.snd
    | none => .null
  | _ => .null

/-- `Value::as_str`. -/
def Json.as_str : Json → Option String
  | .str s => some s
  | _ => none

/-- `Value::as_u64`: `Some` exactly for integers representable in `u64`. -/
def Json.as_u64 : Json → Option Nat
  | .num n => if 0 ≤ n ∧ n < 2 ^ 64 then some n.toNat else none
  | _ => none

/-- `Value::as_i64`: `Some` exactly for integers representable in `i64`. -/
def Json.as_i64 : Json → Option Int
  | .num n => if -(2 ^ 63) ≤ n ∧ n < 2 ^ 63 then some n else none
  | _ => none

/-- `Value::as_array`. -/
def Json.as_array : Json → Option (List Json)
  | .arr xs => some xs
  | _ => none

/-- `get_channel_balance(container, scid)` from `src/bin/peerswap.rs`
lines 16–23.  `funds` is the oracle result of `cli(container,
["listfunds"])` (the `?` there propagates a transport error).  The body
is the chained `as_array / find / as_u64 / unwrap_or(0) / 1000`. -/
def get_channel_balance (funds : Except String Json) (scid : String) :
    Except String Nat :=
  match funds with
  | .error e => .error e
  | .ok funds =>
    .ok (((((funds.get "channels").as_array).bind
        (fun chs =>
          chs.find? (fun c => (c.get "short_channel_id").as_str == some scid))).bind
        (fun c => (c.get "our_amount_msat").as_u64)).getD 0 / 1000)

/-- `struct SwapResult` (lines 149–153). -/
structure SwapResult where
  onchain_fee : Int
  premium : Int
  opening_tx_hex : String
  deriving Repr, DecidableEq

/-- Oracle view of the external world as seen by one swap session:
the response to the initial `peerswap-swap-out`/`peerswap-swap-in` call,
the result of the chain-advance call made on poll tick `i`
(`btc.generate_to_address(1, mine_to)` for the base chain,
`liquid_generate(1)` for the sidechain), and the response to
`cli(container, ["peerswap-getswap", swap_id])` on poll tick `i`. -/
structure SwapEnv where
  swapResp : Except String Json
  advance : Nat → Except String Unit
  getswap : String → Nat → Except String Json

/-- The status-string-to-state map of the poll loops: `status["current"]
.as_str().unwrap_or("")`. -/
def mapState (status : Json) : String :=
  ((status.get "current").as_str).getD ""

/-- The success test of every poll loop: `state == "State_ClaimedPreimage"
|| state == "State_ClaimedCoop"`. -/
def isClaimed (state : String) : Bool :=
  state == "State_ClaimedPreimage" || state == "State_ClaimedCoop"

/-- The `SwapResult` constructed on a successful claim, common to all four
swap functions; `key` is `"swap_out_agreement"` for the swap-out variants
and `"swap_in_agreement"` for the swap-in variants. -/
def extractResult (status : Json) (key : String) : SwapResult :=
  { onchain_fee := (((status.get "data").get "opening_tx_fee").as_i64).getD 0
    premium := ((((status.get "data").get key).get "premium").as_i64).getD 0
    opening_tx_hex := ((((status.get "data").get "opening_tx_hex").as_str).getD "") }

/-- The common `for _ in 0..30` poll loop body of `swap_out`, `swap_in`,
`swap_out_lbtc` and `swap_in_lbtc`: advance the settlement chain by one
confirmation, query the swap status by id, map the status string and
return on a claimed state; `i` is the poll index, `fuel` the remaining
budget.  (The `thread::sleep` between ticks has no observable effect in
the embedding.) -/
def swap_loop (env : SwapEnv) (sid : String) (key : String) :
    Nat → Nat → Except String SwapResult
  | _, 0 => .error "Timeout waiting for swap"
  | i, fuel + 1 =>
    match env.advance i with
    | .error e => .error e
    | .ok _ =>
      match env.getswap sid i with
      | .error e => .error e
      | .ok status =>
        if isClaimed (mapState status) then .ok (extractResult status key)
        else swap_loop env sid key (i + 1) fuel

/-- `swap_out` (lines 155–181): submit `peerswap-swap-out … btc`, extract
the swap id (`context("No swap id")?`), then poll at most 30 times. -/
def swap_out (env : SwapEnv) : Except String SwapResult :=
  match env.swapResp with
  | .error e => .error e
  | .ok swap =>
    match (swap.get "id").as_str with
    | none => .error "No swap id"
    | some sid => swap_loop env sid "swap_out_agreement" 0 30

/-- `swap_in` (lines 183–209): same shape as `swap_out` with the
`swap_in_agreement` premium field. -/
def swap_in (env : SwapEnv) : Except String SwapResult :=
  match env.swapResp with
  | .error e => .error e
  | .ok swap =>
    match (swap.get "id").as_str with
    | none => .error "No swap id"
    | some sid => swap_loop env sid "swap_in_agreement" 0 30

/-- `swap_out_lbtc` (lines 218–242): identical loop, the chain advance is
`liquid_generate(1)` (the `env.advance` oracle). -/
def swap_out_lbtc (env : SwapEnv) : Except String SwapResult :=
  match env.swapResp with
  | .error e => .error e
  | .ok swap =>
    match (swap.get "id").as_str with
    | none => .error "No swap id"
    | some sid => swap_loop env sid "swap_out_agreement" 0 30

/-- `swap_in_lbtc` (lines 244–268). -/
def swap_in_lbtc (env : SwapEnv) : Except String SwapResult :=
  match env.swapResp with
  | .error e => .error e
  | .ok swap =>
    match (swap.get "id").as_str with
    | none => .error "No swap id"
    | some sid => swap_loop env sid "swap_in_agreement" 0 30

/-- One decoded transaction output; `value` is the output amount in
satoshi (`value.to_sat()`). -/
structure TxOut where
  value : Nat
  deriving Repr, DecidableEq

/-- A decoded transaction as `decode_tx_output` uses it: only the output
list is inspected. -/
structure Transaction where
  output : List TxOut
  deriving Repr, DecidableEq

/-- `hex::decode` of a single hex digit. -/
def hexDigit (c : Char) : Option Nat :=
  if 48 ≤ c.toNat ∧ c.toNat ≤ 57 then some (c.toNat - 48)
  else if 97 ≤ c.toNat ∧ c.toNat ≤ 102 then some (c.toNat - 97 + 10)
  else if 65 ≤ c.toNat ∧ c.toNat ≤ 70 then some (c.toNat - 65 + 10)
  else none

/-- `hex::decode` on a character list: fails on odd length or a non-hex
character. -/
def hexDecodeChars : List Char → Option (List Nat)
  | [] => some []
  | [_] => none
  | c1 :: c2 :: rest =>
    match hexDigit c1, hexDigit c2, hexDecodeChars rest with
    | some h, some l, some tail => some ((16 * h + l) :: tail)
    | _, _, _ => none

/-- `hex::decode(tx_hex)?` as used in `decode_tx_output`. -/
def hexDecode (s : String) : Except String (List Nat) :=
  match hexDecodeChars s.data with
  | some bs => .ok bs
  | none => .error "invalid hex"

/-- `decode_tx_output(tx_hex, vout)` (lines 211–216).  The
`bitcoin::consensus::deserialize` library call is the oracle parameter
`deserialize` (it is third-party code, not part of this repository); the
output access is `tx.output.get(vout)` — `Option`-based — followed by
`context("No output")?`. -/
def decode_tx_output (deserialize : List Nat → Except String Transaction)
    (tx_hex : String) (vout : Nat) : Except String Nat :=
  match hexDecode tx_hex with
  | .error e => .error e
  | .ok bytes =>
    match deserialize bytes with
    | .error e => .error e
    | .ok tx =>
      match tx.output.get? vout with
      | none => .error "No output"
      | some o => .ok o.value

/-- Oracle view of the world seen by `open_channel`: the `fundchannel`
response, the result of `btc.generate_to_address(6, mine_to)`, and the
`listfunds` response on poll tick `i`. -/
structure OpenChannelEnv where
  fundchannel : Except String Json
  generate6 : Except String Unit
  listfunds : Nat → Except String Json

/-- The channel lookup of `open_channel`'s poll body:
`listfunds["channels"].as_array().and_then(|chs| chs.iter().find(|c|
c["funding_txid"].as_str() == Some(&funding_txid)))`. -/
def findByFundingTxid (funds : Json) (ftxid : String) : Option Json :=
  ((funds.get "channels").as_array).bind
    (fun chs => chs.find? (fun c => (c.get "funding_txid").as_str == some ftxid))

/-- The `for _ in 0..60` wait loop of `open_channel` (lines 282–292):
query `listfunds`, look for the channel funded by `ftxid`, return its
`short_channel_id` once the state is `CHANNELD_NORMAL`, else sleep and
retry. -/
def open_channel_loop (env : OpenChannelEnv) (ftxid : String) :
    Nat → Nat → Except String String
  | _, 0 => .error "Timeout waiting for channel"
  | i, fuel + 1 =>
    match env.listfunds i with
    | .error e => .error e
    | .ok funds =>
      match findByFundingTxid funds ftxid with
      | some ch =>
        if (ch.get "state").as_str == some "CHANNELD_NORMAL" then
          match (ch.get "short_channel_id").as_str with
          | some s => .ok s
          | none => .error "No scid"
        else open_channel_loop env ftxid (i + 1) fuel
      | none => open_channel_loop env ftxid (i + 1) fuel

/-- `open_channel` (lines 270–294): `fundchannel`, extract the funding
txid (`context("No txid")?`), mine 6 blocks, then poll at most 60
times. -/
def open_channel (env : OpenChannelEnv) : Except String String :=
  match env.fundchannel with
  | .error e => .error e
  | .ok resp =>
    match (resp.get "txid").as_str with
    | none => .error "No txid"
    | some ftxid =>
      match env.generate6 with
      | .error e => .error e
      | .ok _ => open_channel_loop env ftxid 0 60

/-- Rust `x as u64` applied to an `i64` value: reinterpret the
two's-complement bit pattern, i.e. reduce mod `2^64`. -/
def u64cast (i : Int) : Nat := (i.emod (2 ^ 64)).toNat

/-- Oracle view of the external world consumed by the swap phase of
`main` in `src/bin/peerswap.rs` (lines 331–417): one `SwapEnv` per swap
session, the transaction deserializer, the sequence of `listfunds`
responses behind the sixteen `get_channel_balance` calls (in call order),
and the Liquid wallet/funding setup block (lines 372–383: `createwallet`,
`loadwallet`, `liquid_claim_genesis`, the two `peerswap_lbtc_addr` and
`liquid_send` calls and `liquid_generate` — each of which propagates its
error with `?`, so the block as a whole is one `Except`). -/
structure ScenarioWorld where
  swapOutBtc : SwapEnv
  swapInBtc : SwapEnv
  swapOutLbtc : SwapEnv
  swapInLbtc : SwapEnv
  deserialize : List Nat → Except String Transaction
  balances : Nat → Except String Json
  liquidSetup : Except String Unit

/-- The settlement assertion of `main` line 359:
`assert_eq!(onchain_sent, 100_000 + result.premium as u64, "On-chain
amount mismatch")`.  The `assert_eq!` panic is modelled as an error; the
right-hand side is `u64` arithmetic, hence the cast and the wrap. -/
def checkSettlement (onchain_sent : Nat) (premium : Int) :
    Except String Unit :=
  if onchain_sent = (100000 + u64cast premium) % 2 ^ 64 then .ok ()
  else .error "On-chain amount mismatch"

/-- The swap phase of `main` (lines 331–417), after the channel is open
and funded.  Every `?` of the Rust code is a monadic bind; the balance
prints and deltas have no observable effect beyond the error propagation
of the `get_channel_balance(…)?` calls themselves.  Note which sessions
decode and check the settlement output: the base-chain swap-out decodes
output 0 of the opening transaction (line 338) but only prints it; the
base-chain swap-in decodes it and asserts the `amount + premium` equality
(lines 357–359); the two Liquid sessions neither decode nor check. -/
def run_swap_phase (w : ScenarioWorld) (scid : String) :
    Except String Unit := do
  let _ ← get_channel_balance (w.balances 0) scid
  let _ ← get_channel_balance (w.balances 1) scid
  let r1 ← swap_out w.swapOutBtc
  let _onchain1 ← decode_tx_output w.deserialize r1.opening_tx_hex 0
  let _ ← get_channel_balance (w.balances 2) scid
  let _ ← get_channel_balance (w.balances 3) scid
  let _ ← get_channel_balance (w.balances 4) scid
  let _ ← get_channel_balance (w.balances 5) scid
  let r2 ← swap_in w.swapInBtc
  let onchain2 ← decode_tx_output w.deserialize r2.opening_tx_hex 0
  let _ ← checkSettlement onchain2 r2.premium
  let _ ← get_channel_balance (w.balances 6) scid
  let _ ← get_channel_balance (w.balances 7) scid
  let _ ← w.liquidSetup
  let _ ← get_channel_balance (w.balances 8) scid
  let _ ← get_channel_balance (w.balances 9) scid
  let _r3 ← swap_out_lbtc w.swapOutLbtc
  let _ ← get_channel_balance (w.balances 10) scid
  let _ ← get_channel_balance (w.balances 11) scid
  let _ ← get_channel_balance (w.balances 12) scid
  let _ ← get_channel_balance (w.balances 13) scid
  let _r4 ← swap_in_lbtc w.swapInLbtc
  let _ ← get_channel_balance (w.balances 14) scid
  let _ ← get_channel_balance (w.balances 15) scid
  pure ()

/-- `GlNode::load_or_create_seed` from `src/main.rs` (lines 149–162).
The filesystem is the oracle `fs` (a map from path to file bytes;
`Path::exists` is `isSome`, `File::open` + `read_exact` of 32 bytes fails
when the file is shorter, `File::create` + `write_all` truncates and
replaces the file).  `gen` is the oracle result of the
`rand`/`Mnemonic::generate_in_with`/`to_seed("")` pipeline: the 64-byte
seed material from which the code takes `[..32].try_into()`.  Returns the
seed together with the filesystem after the call. -/
def load_or_create_seed (fs : String → Option (List Nat))
    (gen : Except String (List Nat)) (path : String) :
    Except String (List Nat × (String → Option (List Nat))) :=
  match fs path with
  | some bs =>
    if 32 ≤ bs.length then .ok (bs.take 32, fs)
    else .error "failed to fill whole buffer"
  | none =>
    match gen with
    | .error e => .error e
    | .ok seedBytes =>
      let seed := seedBytes.take 32
      if seed.length = 32 then
        .ok (seed, fun p => if p = path then some seed else fs p)
      else .error "could not convert slice to array"

/-- Concrete fixture: a non-terminal swap status, as `peerswap-getswap`
returns it while the swap is still pending. -/
def pendingStatus : Json :=
  Json.obj [("current", Json.str "State_SwapOutSender_AwaitTxConfirmation")]

/-- Concrete fixture: a claimed (successful terminal) swap status with the
given opening-transaction fee, agreed premium and opening-transaction
hex; `key` is the agreement object's field name. -/
def claimedStatus (key : String) (fee premium : Int) (txhex : String) : Json :=
  Json.obj [("current", Json.str "State_ClaimedPreimage"),
    ("data", Json.obj
      [("opening_tx_fee", Json.num fee),
       (key, Json.obj [("premium", Json.num premium)]),
       ("opening_tx_hex", Json.str txhex)])]

/-- Concrete fixture: a claimed swap status carrying no `data` object at
all. -/
def claimedNoData : Json := Json.obj [("current", Json.str "State_ClaimedCoop")]

/-- Concrete fixture: the acceptance response of `peerswap-swap-out` /
`peerswap-swap-in`. -/
def swapAccepted : Json := Json.obj [("id", Json.str "swap-1")]

/-- Concrete fixture: a `listfunds` response with an empty channel
list. -/
def noChannelsFunds : Json := Json.obj [("channels", Json.arr [])]

/-- Concrete fixture: a swap session whose status stays pending on every
poll tick. -/
def envPendingForever : SwapEnv :=
  { swapResp := .ok swapAccepted
    advance := fun _ => .ok ()
    getswap := fun _ _ => .ok pendingStatus }

/-- Concrete fixture: a swap-out session claimed on the first poll. -/
def envClaimOut (fee premium : Int) (txhex : String) : SwapEnv :=
  { swapResp := .ok swapAccepted
    advance := fun _ => .ok ()
    getswap := fun _ _ => .ok (claimedStatus "swap_out_agreement" fee premium txhex) }

/-- Concrete fixture: a swap-in session claimed on the first poll. -/
def envClaimIn (fee premium : Int) (txhex : String) : SwapEnv :=
  { swapResp := .ok swapAccepted
    advance := fun _ => .ok ()
    getswap := fun _ _ => .ok (claimedStatus "swap_in_agreement" fee premium txhex) }

/-- Concrete fixture: a swap session claimed on the first poll with a
status that carries no `data` object. -/
def envClaimNoData : SwapEnv :=
  { swapResp := .ok swapAccepted
    advance := fun _ => .ok ()
    getswap := fun _ _ => .ok claimedNoData }

/-- Concrete fixture deserializer oracle: the bytes of hex `"ab"` decode
to a one-output transaction of value 42, the bytes of hex `"cd"` to one
of value 100000. -/
def deserializeFix : List Nat → Except String Transaction :=
  fun bs =>
    if bs = [171] then .ok { output := [{ value := 42 }] }
    else if bs = [205] then .ok { output := [{ value := 100000 }] }
    else .error "bad transaction"

/-- Concrete fixture world: all four sessions succeed; the base-chain
swap-out settles with output value 42 (a mismatch against
`amount + premium = 100000`), the base-chain swap-in with output value
100000 (a match). -/
def worldUncheckedMismatch : ScenarioWorld :=
  { swapOutBtc := envClaimOut 500 0 "ab"
    swapInBtc := envClaimIn 600 0 "cd"
    swapOutLbtc := envClaimOut 0 0 "ab"
    swapInLbtc := envClaimIn 0 0 "ab"
    deserialize := deserializeFix
    balances := fun _ => .ok noChannelsFunds
    liquidSetup := .ok () }

/-- Concrete fixture world: like `worldUncheckedMismatch` but the
base-chain swap-in also settles with output value 42, a mismatch. -/
def worldSwapInMismatch : ScenarioWorld :=
  { swapOutBtc := envClaimOut 500 0 "ab"
    swapInBtc := envClaimIn 600 0 "ab"
    swapOutLbtc := envClaimOut 0 0 "ab"
    swapInLbtc := envClaimIn 0 0 "ab"
    deserialize := deserializeFix
    balances := fun _ => .ok noChannelsFunds
    liquidSetup := .ok () }

/-- Concrete fixture world: the first session (base-chain swap-out) never
reaches a terminal status while every later session would succeed. -/
def worldFirstSessionFails : ScenarioWorld :=
  { swapOutBtc := envPendingForever
    swapInBtc := envClaimIn 600 0 "cd"
    swapOutLbtc := envClaimOut 0 0 "ab"
    swapInLbtc := envClaimIn 0 0 "ab"
    deserialize := deserializeFix
    balances := fun _ => .ok noChannelsFunds
    liquidSetup := .ok () }

/-- Concrete fixture: a `listfunds` response whose single channel, funded
by txid `ftx0`, is active. -/
def activeChannelFunds : Json :=
  Json.obj [("channels", Json.arr [Json.obj
    [("funding_txid", Json.str "ftx0"),
     ("state", Json.str "CHANNELD_NORMAL"),
     ("short_channel_id", Json.str "103x1x1")]])]

/-- Concrete fixture: an `open_channel` run whose channel is active from
the first poll. -/
def envChannelActive : OpenChannelEnv :=
  { fundchannel := .ok (Json.obj [("txid", Json.str "ftx0")])
    generate6 := .ok ()
    listfunds := fun _ => .ok activeChannelFunds }

/-- Monadic bind on `Except` applied to a success, reduced. -/
theorem except_bind_ok {α β : Type} (a : α) (f : α → Except String β) :
    ((Except.ok a : Except String α) >>= f) = f a := rfl

/-- Monadic bind on `Except` applied to a failure, reduced. -/
theorem except_bind_error {α β : Type} (e : String)
    (f : α → Except String β) :
    ((Except.error e : Except String α) >>= f) = Except.error e := rfl

/-- A claimed state observed on poll tick `i` makes the loop return the
extracted result immediately. -/
theorem swap_loop_hit (env : SwapEnv) (sid key : String) (st : Json)
    (i fuel : Nat) (hadv : env.advance i = .ok ())
    (hget : env.getswap sid i = .ok st)
    (hclaim : isClaimed (mapState st) = true) :
    swap_loop env sid key i (fuel + 1) = .ok (extractResult st key) := by
  simp [swap_loop, hadv, hget, hclaim]

/-- If every poll tick in the budget succeeds but never shows a claimed
state, the loop exhausts its budget and times out. -/
theorem swap_loop_timeout_of (env : SwapEnv) (sid key : String)
    (st : Nat → Json) :
    ∀ fuel start,
      (∀ i, start ≤ i → i < start + fuel → env.advance i = .ok ()) →
      (∀ i, start ≤ i → i < start + fuel → env.getswap sid i = .ok (st i)) →
      (∀ i, start ≤ i → i < start + fuel → isClaimed (mapState (st i)) = false) →
      swap_loop env sid key start fuel = .error "Timeout waiting for swap" := by
  intro fuel
  induction fuel with
  | zero => intro start _ _ _; rfl
  | succ n ih =>
    intro start hadv hget hnc
    have ha := hadv start (Nat.le_refl _) (by omega)
    have hg := hget start (Nat.le_refl _) (by omega)
    have hn := hnc start (Nat.le_refl _) (by omega)
    have hrec := ih (start + 1)
      (fun i h1 h2 => hadv i (by omega) (by omega))
      (fun i h1 h2 => hget i (by omega) (by omega))
      (fun i h1 h2 => hnc i (by omega) (by omega))
    simp [swap_loop, ha, hg, hn, hrec]

/-- Inversion: a successful loop result comes from some claimed status
observed within the budget, and the result is its extraction. -/
theorem swap_loop_ok_inv (env : SwapEnv) (sid key : String) :
    ∀ fuel start r, swap_loop env sid key start fuel = .ok r →
      ∃ i st, start ≤ i ∧ i < start + fuel ∧ env.getswap sid i = .ok st ∧
        isClaimed (mapState st) = true ∧ r = extractResult st key := by
  intro fuel
  induction fuel with
  | zero => intro start r h; exact absurd h (by simp [swap_loop])
  | succ n ih =>
    intro start r h
    rw [swap_loop] at h
    cases hadv : env.advance start with
    | error e => rw [hadv] at h; simp at h
    | ok u =>
      rw [hadv] at h
      cases hget : env.getswap sid start with
      | error e => rw [hget] at h; simp at h
      | ok st =>
        rw [hget] at h
        cases hc : isClaimed (mapState st) with
        | true =>
          simp [hc] at h
          exact ⟨start, st, Nat.le_refl _, by omega, hget, hc, h.symm⟩
        | false =>
          simp [hc] at h
          obtain ⟨i, sti, hi1, hi2, hg, hcl, hr⟩ := ih (start + 1) r h
          exact ⟨i, sti, by omega, by omega, hg, hcl, hr⟩

/-- If the first claimed status appears on tick `i` within the budget
(every earlier tick succeeding but unclaimed), the loop returns its
extraction. -/
theorem swap_loop_reaches (env : SwapEnv) (sid key : String) (st : Json) :
    ∀ fuel start i, start ≤ i → i < start + fuel →
      (∀ j, start ≤ j → j < i → env.advance j = .ok () ∧
        ∃ stj, env.getswap sid j = .ok stj ∧ isClaimed (mapState stj) = false) →
      env.advance i = .ok () → env.getswap sid i = .ok st →
      isClaimed (mapState st) = true →
      swap_loop env sid key start fuel = .ok (extractResult st key) := by
  intro fuel
  induction fuel with
  | zero => intro start i h1 h2 _ _ _ _; omega
  | succ n ih =>
    intro start i h1 h2 hpre hadv hget hclaim
    rcases Nat.eq_or_lt_of_le h1 with heq | hlt
    · subst heq; exact swap_loop_hit env sid key st start n hadv hget hclaim
    · obtain ⟨ha, stj, hg, hnc⟩ := hpre start (Nat.le_refl _) hlt
      have hrec := ih (start + 1) i hlt (by omega)
        (fun j hj1 hj2 => hpre j (by omega) hj2) hadv hget hclaim
      simp [swap_loop, ha, hg, hnc, hrec]

/-- If every poll tick in the budget returns a funds listing in which the
funded channel is absent or not yet `CHANNELD_NORMAL`, the wait loop
times out. -/
theorem open_channel_loop_timeout_of (env : OpenChannelEnv) (ftxid : String)
    (funds : Nat → Json) :
    ∀ fuel start,
      (∀ i, start ≤ i → i < start + fuel → env.listfunds i = .ok (funds i)) →
      (∀ i, start ≤ i → i < start + fuel → ∀ ch,
        findByFundingTxid (funds i) ftxid = some ch →
        ((ch.get "state").as_str == some "CHANNELD_NORMAL") = false) →
      open_channel_loop env ftxid start fuel = .error "Timeout waiting for channel" := by
  intro fuel
  induction fuel with
  | zero => intro start _ _; rfl
  | succ n ih =>
    intro start hlf hnn
    have hl := hlf start (Nat.le_refl _) (by omega)
    have hrec := ih (start + 1)
      (fun i h1 h2 => hlf i (by omega) (by omega))
      (fun i h1 h2 => hnn i (by omega) (by omega))
    cases hfind : findByFundingTxid (funds start) ftxid with
    | none => simp [open_channel_loop, hl, hfind, hrec]
    | some ch =>
      have hst := hnn start (Nat.le_refl _) (by omega) ch hfind
      simp [open_channel_loop, hl, hfind, hst, hrec]

/-- Inversion: a short channel id is returned only from a poll tick whose
funds listing shows the funded channel in state `CHANNELD_NORMAL`. -/
theorem open_channel_loop_ok_inv (env : OpenChannelEnv) (ftxid : String) :
    ∀ fuel start s, open_channel_loop env ftxid start fuel = .ok s →
      ∃ i funds ch, start ≤ i ∧ i < start + fuel ∧
        env.listfunds i = .ok funds ∧
        findByFundingTxid funds ftxid = some ch ∧
        (ch.get "state").as_str = some "CHANNELD_NORMAL" ∧
        (ch.get "short_channel_id").as_str = some s := by
  intro fuel
  induction fuel with
  | zero => intro start s h; exact absurd h (by simp [open_channel_loop])
  | succ n ih =>
    intro start s h
    rw [open_channel_loop] at h
    cases hl : env.listfunds start with
    | error e => rw [hl] at h; simp at h
    | ok funds =>
      simp only [hl] at h
      cases hfind : findByFundingTxid funds ftxid with
      | none =>
        simp only [hfind] at h
        obtain ⟨i, f, ch, hi1, hi2, rest⟩ := ih (start + 1) s h
        exact ⟨i, f, ch, by omega, by omega, rest⟩
      | some ch =>
        simp only [hfind] at h
        cases hst : ((ch.get "state").as_str == some "CHANNELD_NORMAL") with
        | false =>
          simp [hst] at h
          obtain ⟨i, f, c, hi1, hi2, rest⟩ := ih (start + 1) s h
          exact ⟨i, f, c, by omega, by omega, rest⟩
        | true =>
          simp only [hst, if_pos] at h
          cases hscid : (ch.get "short_channel_id").as_str with
          | none => rw [hscid] at h; simp at h
          | some s2 =>
            rw [hscid] at h
            simp at h
            exact ⟨start, funds, ch, Nat.le_refl _, by omega, hl, hfind,
              by simpa using hst, by rw [hscid, h]⟩

/-- Claim C2, counterexample: a well-formed `listfunds` response that does
not contain the requested channel id, and one whose channel entry lacks a
readable `our_amount_msat`, are both silently reported as balance 0
rather than as an error. -/
theorem channel_balance_silent_zero_cex :
    get_channel_balance (.ok noChannelsFunds) "103x1x1" = .ok 0 ∧
    get_channel_balance
      (.ok (Json.obj [("channels", Json.arr
        [Json.obj [("short_channel_id", Json.str "103x1x1")]])]))
      "103x1x1" = .ok 0 := ⟨rfl, rfl⟩

/-- Claim C2 as amended: a transport-level failure of the `listfunds`
query propagates as an error, but a response in which the requested
channel id is absent — or present without a readable `our_amount_msat`
field — is reported as balance 0 rather than as an error. -/
theorem channel_balance_amended (scid e : String) (funds : Json)
    (chs : List Json) :
    get_channel_balance (.error e) scid = .error e ∧
    ((funds.get "channels").as_array = some chs →
      chs.find? (fun c => (c.get "short_channel_id").as_str == some scid) = none →
      get_channel_balance (.ok funds) scid = .ok 0) ∧
    (∀ c, (funds.get "channels").as_array = some chs →
      chs.find? (fun c => (c.get "short_channel_id").as_str == some scid) = some c →
      (c.get "our_amount_msat").as_u64 = none →
      get_channel_balance (.ok funds) scid = .ok 0) := by
  refine ⟨rfl, ?_, ?_⟩ <;> intros <;> simp [get_channel_balance, *]

/-- Claim C2 amended, witness: the channel-absent case at a concrete
response. -/
theorem channel_balance_amended_witness :
    get_channel_balance (.ok noChannelsFunds) "999x9x9" = .ok 0 :=
  (channel_balance_amended "999x9x9" "boom" noChannelsFunds []).2.1 rfl rfl

/-- Claim C3: once the swap is accepted, if all 30 polls of the budget
succeed but never return a claimed terminal status, both `swap_out` and
`swap_in` fail with the timeout error, so no `SwapResult` (and hence no
settlement accounting) is produced. -/
theorem swap_poll_budget_timeout (env : SwapEnv) (swap : Json)
    (sid : String) (st : Nat → Json)
    (hresp : env.swapResp = .ok swap)
    (hid : (swap.get "id").as_str = some sid)
    (hadv : ∀ i, i < 30 → env.advance i = .ok ())
    (hget : ∀ i, i < 30 → env.getswap sid i = .ok (st i))
    (hnc : ∀ i, i < 30 → isClaimed (mapState (st i)) = false) :
    swap_out env = .error "Timeout waiting for swap" ∧
    swap_in env = .error "Timeout waiting for swap" := by
  constructor
  · simp only [swap_out, hresp, hid]
    exact swap_loop_timeout_of env sid "swap_out_agreement" st 30 0
      (fun i _ h2 => hadv i (by omega)) (fun i _ h2 => hget i (by omega))
      (fun i _ h2 => hnc i (by omega))
  · simp only [swap_in, hresp, hid]
    exact swap_loop_timeout_of env sid "swap_in_agreement" st 30 0
      (fun i _ h2 => hadv i (by omega)) (fun i _ h2 => hget i (by omega))
      (fun i _ h2 => hnc i (by omega))

/-- Claim C3, witness: a session that stays pending on every poll times
out in both directions. -/
theorem swap_poll_budget_timeout_witness :
    swap_out envPendingForever = .error "Timeout waiting for swap" ∧
    swap_in envPendingForever = .error "Timeout waiting for swap" :=
  swap_poll_budget_timeout envPendingForever swapAccepted "swap-1"
    (fun _ => pendingStatus) rfl rfl (fun _ _ => rfl) (fun _ _ => rfl)
    (fun _ _ => rfl)

/-- Claim C5: `decode_tx_output` propagates a hex-decoding failure and a
deserialization failure, reports `No output` when the output index is out
of range (the access is `Option`-based), and otherwise returns the value
of the output at that index. -/
theorem decode_tx_output_total
    (deserialize : List Nat → Except String Transaction)
    (tx_hex : String) (vout : Nat) :
    (∀ e, hexDecode tx_hex = .error e →
      decode_tx_output deserialize tx_hex vout = .error e) ∧
    (∀ bytes e, hexDecode tx_hex = .ok bytes → deserialize bytes = .error e →
      decode_tx_output deserialize tx_hex vout = .error e) ∧
    (∀ bytes tx, hexDecode tx_hex = .ok bytes → deserialize bytes = .ok tx →
      tx.output.length ≤ vout →
      decode_tx_output deserialize tx_hex vout = .error "No output") ∧
    (∀ bytes tx, hexDecode tx_hex = .ok bytes → deserialize bytes = .ok tx →
      ∀ h : vout < tx.output.length,
        decode_tx_output deserialize tx_hex vout =
          .ok (tx.output.get ⟨vout, h⟩).value) := by
  refine ⟨?_, ?_, ?_, ?_⟩
  · intro e he; simp [decode_tx_output, he]
  · intro bytes e h1 h2; simp [decode_tx_output, h1, h2]
  · intro bytes tx h1 h2 h3
    simp [decode_tx_output, h1, h2, List.getElem?_eq_none h3]
  · intro bytes tx h1 h2 h
    simp [decode_tx_output, h1, h2, List.getElem?_eq_getElem h]

/-- Claim C5, witness: decoding output 0 of the transaction behind hex
`"ab"` yields its value. -/
theorem decode_tx_output_total_witness :
    decode_tx_output deserializeFix "ab" 0 = .ok 42 :=
  (decode_tx_output_total deserializeFix "ab" 0).2.2.2 [171]
    { output := [{ value := 42 }] } rfl rfl (by decide)

/-- Claim C4: a successful `swap_out` outcome arises exactly from an
observed status mapped to `State_ClaimedPreimage` or `State_ClaimedCoop`
within the 30-poll budget (each tick advancing the chain and querying by
swap id), and is its field extraction; conversely the first claimed
status within the budget produces that success; and the extraction reads
only the `data` object, so the two claim paths yield identical
`SwapResult` fields. -/
theorem swap_claim_states_characterisation (env : SwapEnv) (swap : Json)
    (sid : String)
    (hresp : env.swapResp = .ok swap)
    (hid : (swap.get "id").as_str = some sid) :
    (∀ r, swap_out env = .ok r →
      ∃ i st, i < 30 ∧ env.getswap sid i = .ok st ∧
        (mapState st = "State_ClaimedPreimage" ∨
          mapState st = "State_ClaimedCoop") ∧
        r = extractResult st "swap_out_agreement") ∧
    (∀ i st, i < 30 →
      (∀ j, j < i → env.advance j = .ok () ∧
        ∃ stj, env.getswap sid j = .ok stj ∧ isClaimed (mapState stj) = false) →
      env.advance i = .ok () → env.getswap sid i = .ok st →
      (mapState st = "State_ClaimedPreimage" ∨
        mapState st = "State_ClaimedCoop") →
      swap_out env = .ok (extractResult st "swap_out_agreement")) ∧
    (∀ st1 st2 key, st1.get "data" = st2.get "data" →
      extractResult st1 key = extractResult st2 key) := by
  have hiff : ∀ s : String, isClaimed s = true ↔
      s = "State_ClaimedPreimage" ∨ s = "State_ClaimedCoop" := by
    intro s; simp [isClaimed]
  refine ⟨?_, ?_, ?_⟩
  · intro r h
    simp only [swap_out, hresp, hid] at h
    obtain ⟨i, st, _, h30, hg, hcl, hr⟩ :=
      swap_loop_ok_inv env sid "swap_out_agreement" 30 0 r h
    exact ⟨i, st, by omega, hg, (hiff _).mp hcl, hr⟩
  · intro i st hi hpre hadv hget hcl
    simp only [swap_out, hresp, hid]
    exact swap_loop_reaches env sid "swap_out_agreement" st 30 0 i
      (by omega) (by omega) (fun j _ hj => hpre j hj) hadv hget
      ((hiff _).mpr hcl)
  · intro st1 st2 key hd
    simp [extractResult, hd]

/-- Claim C4, witness: a session claimed on the first poll yields the
extracted result. -/
theorem swap_claim_states_witness :
    swap_out (envClaimOut 500 3 "ab") =
      .ok { onchain_fee := 500, premium := 3, opening_tx_hex := "ab" } :=
  (swap_claim_states_characterisation (envClaimOut 500 3 "ab") swapAccepted
      "swap-1" rfl rfl).2.1 0
    (claimedStatus "swap_out_agreement" 500 3 "ab") (by omega)
    (fun j hj => absurd hj (by omega)) rfl rfl (Or.inl rfl)

/-- Claim C7: `open_channel` returns a short channel id only from a poll
tick (within the 60-poll budget) whose funds listing shows the channel
funded by the `fundchannel` txid in state `CHANNELD_NORMAL`; and when
every poll in the budget succeeds without that state being observed, it
fails with the timeout error. -/
theorem open_channel_active_spec (env : OpenChannelEnv) (resp : Json)
    (ftxid : String)
    (hresp : env.fundchannel = .ok resp)
    (hid : (resp.get "txid").as_str = some ftxid)
    (hgen : env.generate6 = .ok ()) :
    (∀ s, open_channel env = .ok s →
      ∃ i funds ch, i < 60 ∧ env.listfunds i = .ok funds ∧
        findByFundingTxid funds ftxid = some ch ∧
        (ch.get "state").as_str = some "CHANNELD_NORMAL" ∧
        (ch.get "short_channel_id").as_str = some s) ∧
    (∀ funds : Nat → Json,
      (∀ i, i < 60 → env.listfunds i = .ok (funds i)) →
      (∀ i, i < 60 → ∀ ch, findByFundingTxid (funds i) ftxid = some ch →
        ((ch.get "state").as_str == some "CHANNELD_NORMAL") = false) →
      open_channel env = .error "Timeout waiting for channel") := by
  constructor
  · intro s h
    simp only [open_channel, hresp, hid, hgen] at h
    obtain ⟨i, funds, ch, _, h60, rest⟩ :=
      open_channel_loop_ok_inv env ftxid 60 0 s h
    exact ⟨i, funds, ch, by omega, rest⟩
  · intro funds hlf hnn
    simp only [open_channel, hresp, hid, hgen]
    exact open_channel_loop_timeout_of env ftxid funds 60 0
      (fun i _ h2 => hlf i (by omega)) (fun i _ h2 => hnn i (by omega))

/-- Claim C7, witness: a channel that is active from the first poll is
returned with its short channel id. -/
theorem open_channel_active_witness :
    ∃ i funds ch, i < 60 ∧ envChannelActive.listfunds i = .ok funds ∧
      findByFundingTxid funds "ftx0" = some ch ∧
      (ch.get "state").as_str = some "CHANNELD_NORMAL" ∧
      (ch.get "short_channel_id").as_str = some "103x1x1" :=
  (open_channel_active_spec envChannelActive
      (Json.obj [("txid", Json.str "ftx0")]) "ftx0" rfl rfl rfl).1
    "103x1x1" rfl

/-- Claim C8, counterexample: a status response reporting a negative
`opening_tx_fee` flows straight into a successfully produced
`SwapResult`, whose `onchain_fee` is then negative — nothing in the
coordinator enforces nonnegativity. -/
theorem swap_fee_nonneg_cex :
    swap_out (envClaimOut (-5) 7 "ab") =
      .ok { onchain_fee := -5, premium := 7, opening_tx_hex := "ab" } ∧
    ((-5 : Int) < 0) := ⟨rfl, by decide⟩

/-- Claim C8 as amended: the `onchain_fee` and `premium` fields of a
successfully produced `SwapResult` are copied from the collaborator's
status response (with default 0 when absent); they are nonnegative
provided every value the collaborator reports is nonnegative, but the
coordinator itself enforces no sign. -/
theorem swap_fee_premium_nonneg_of_response (env : SwapEnv) (swap : Json)
    (sid : String) (r : SwapResult)
    (hresp : env.swapResp = .ok swap)
    (hid : (swap.get "id").as_str = some sid)
    (hfee : ∀ i st, env.getswap sid i = .ok st →
      0 ≤ (((st.get "data").get "opening_tx_fee").as_i64).getD 0)
    (hprem : ∀ i st, env.getswap sid i = .ok st →
      0 ≤ ((((st.get "data").get "swap_out_agreement").get "premium").as_i64).getD 0)
    (hok : swap_out env = .ok r) :
    0 ≤ r.onchain_fee ∧ 0 ≤ r.premium := by
  simp only [swap_out, hresp, hid] at hok
  obtain ⟨i, st, _, _, hg, _, hr⟩ :=
    swap_loop_ok_inv env sid "swap_out_agreement" 30 0 r hok
  subst hr
  exact ⟨hfee i st hg, hprem i st hg⟩

/-- Claim C8 amended, witness: with a collaborator reporting fee 500 and
premium 3, the produced fields are nonnegative. -/
theorem swap_fee_premium_nonneg_witness :
    0 ≤ (SwapResult.mk 500 3 "ab").onchain_fee ∧
    0 ≤ (SwapResult.mk 500 3 "ab").premium :=
  swap_fee_premium_nonneg_of_response (envClaimOut 500 3 "ab") swapAccepted
    "swap-1" (SwapResult.mk 500 3 "ab") rfl rfl
    (fun i st h => by cases h; decide)
    (fun i st h => by cases h; decide)
    rfl

/-- Claim C9: when the claimed status observed on the first poll lacks a
readable `opening_tx_fee`, agreement `premium` and `opening_tx_hex`, the
session still succeeds, silently substituting 0, 0 and the empty
string. -/
theorem swap_missing_fields_default (env : SwapEnv) (swap : Json)
    (sid : String) (st : Json)
    (hresp : env.swapResp = .ok swap)
    (hid : (swap.get "id").as_str = some sid)
    (hadv : env.advance 0 = .ok ())
    (hget : env.getswap sid 0 = .ok st)
    (hclaim : isClaimed (mapState st) = true)
    (hfee : ((st.get "data").get "opening_tx_fee").as_i64 = none)
    (hprem : (((st.get "data").get "swap_out_agreement").get "premium").as_i64 = none)
    (hhex : ((st.get "data").get "opening_tx_hex").as_str = none) :
    swap_out env = .ok { onchain_fee := 0, premium := 0, opening_tx_hex := "" } := by
  simp only [swap_out, hresp, hid]
  have h30 : swap_loop env sid "swap_out_agreement" 0 (29 + 1) =
      .ok (extractResult st "swap_out_agreement") :=
    swap_loop_hit env sid "swap_out_agreement" st 0 29 hadv hget hclaim
  refine h30.trans ?_
  simp [extractResult, hfee, hprem, hhex]

/-- Claim C9, witness: a claimed status with no `data` object at all
yields the all-default `SwapResult` with no error. -/
theorem swap_missing_fields_default_witness :
    swap_out envClaimNoData =
      .ok { onchain_fee := 0, premium := 0, opening_tx_hex := "" } :=
  swap_missing_fields_default envClaimNoData swapAccepted "swap-1"
    claimedNoData rfl rfl rfl rfl rfl rfl rfl rfl

/-- Claim C1, counterexample: a run in which the base-chain swap-out
session succeeds with a settlement output of 42 — differing from
`amount + premium = 100000 + 0` — yet the whole scenario completes
without any settlement-mismatch error: the equality is never asserted for
that session. -/
theorem settlement_check_not_unconditional_cex :
    swap_out worldUncheckedMismatch.swapOutBtc =
      .ok { onchain_fee := 500, premium := 0, opening_tx_hex := "ab" } ∧
    decode_tx_output worldUncheckedMismatch.deserialize "ab" 0 = .ok 42 ∧
    (42 : Nat) ≠ 100000 + 0 ∧
    run_swap_phase worldUncheckedMismatch "103x1x1" = .ok () :=
  ⟨rfl, rfl, by decide, rfl⟩

/-- Claim C1 as amended: the settlement-output equality against
`amount + premium` is asserted only for the base-chain swap-in session
(the base-chain swap-out output is decoded but only printed, and the
sidechain sessions are not decoded at all); for that one session a
decoded value differing from `100000 + premium` (as `u64` arithmetic)
aborts the run with the mismatch error. -/
theorem swap_in_settlement_mismatch_fails (w : ScenarioWorld)
    (scid : String) (b : Nat → Nat) (r1 r2 : SwapResult) (v1 v2 : Nat)
    (hb : ∀ i, i < 6 → get_channel_balance (w.balances i) scid = .ok (b i))
    (h1 : swap_out w.swapOutBtc = .ok r1)
    (hd1 : decode_tx_output w.deserialize r1.opening_tx_hex 0 = .ok v1)
    (h2 : swap_in w.swapInBtc = .ok r2)
    (hd2 : decode_tx_output w.deserialize r2.opening_tx_hex 0 = .ok v2)
    (hne : v2 ≠ (100000 + u64cast r2.premium) % 2 ^ 64) :
    run_swap_phase w scid = .error "On-chain amount mismatch" := by
  have hb0 := hb 0 (by omega)
  have hb1 := hb 1 (by omega)
  have hb2 := hb 2 (by omega)
  have hb3 := hb 3 (by omega)
  have hb4 := hb 4 (by omega)
  have hb5 := hb 5 (by omega)
  have hne2 : v2 ≠ (100000 + u64cast r2.premium) % 18446744073709551616 := by
    simpa using hne
  simp [run_swap_phase, hb0, hb1, hb2, hb3, hb4, hb5, h1, hd1, h2, hd2,
    except_bind_ok, except_bind_error, checkSettlement, hne2]

/-- Claim C1 amended, witness: a run whose base-chain swap-in settles
with output 42 instead of 100000 aborts with the mismatch error. -/
theorem swap_in_settlement_mismatch_witness :
    run_swap_phase worldSwapInMismatch "103x1x1" =
      .error "On-chain amount mismatch" :=
  swap_in_settlement_mismatch_fails worldSwapInMismatch "103x1x1"
    (fun _ => 0) ⟨500, 0, "ab"⟩ ⟨600, 0, "ab"⟩ 42 42
    (fun i _ => rfl) rfl rfl rfl rfl (by decide)

/-- Claim C6, counterexample: when the first session (base-chain
swap-out) fails with a timeout, the scenario run aborts with exactly that
error — even though every remaining session was set up to succeed — so
the remaining sessions are never run and their outcomes never
recorded. -/
theorem failed_session_aborts_runner_cex :
    swap_out worldFirstSessionFails.swapOutBtc =
      .error "Timeout waiting for swap" ∧
    swap_in worldFirstSessionFails.swapInBtc =
      .ok { onchain_fee := 600, premium := 0, opening_tx_hex := "cd" } ∧
    swap_out_lbtc worldFirstSessionFails.swapOutLbtc =
      .ok { onchain_fee := 0, premium := 0, opening_tx_hex := "ab" } ∧
    swap_in_lbtc worldFirstSessionFails.swapInLbtc =
      .ok { onchain_fee := 0, premium := 0, opening_tx_hex := "ab" } ∧
    run_swap_phase worldFirstSessionFails "103x1x1" =
      .error "Timeout waiting for swap" :=
  ⟨rfl, rfl, rfl, rfl, rfl⟩

/-- Claim C6 as amended: a session failure aborts the scenario runner by
error propagation — the run's result is the first session's error, and no
later session outcome is recorded. -/
theorem session_failure_aborts_runner (w : ScenarioWorld) (scid : String)
    (b0 b1 : Nat) (e : String)
    (hb0 : get_channel_balance (w.balances 0) scid = .ok b0)
    (hb1 : get_channel_balance (w.balances 1) scid = .ok b1)
    (h1 : swap_out w.swapOutBtc = .error e) :
    run_swap_phase w scid = .error e := by
  simp [run_swap_phase, hb0, hb1, h1, except_bind_ok, except_bind_error]

/-- Claim C6 amended, witness: the timed-out first session's error is the
run's result. -/
theorem session_failure_aborts_runner_witness :
    run_swap_phase worldFirstSessionFails "103x1x1" =
      .error "Timeout waiting for swap" :=
  session_failure_aborts_runner worldFirstSessionFails "103x1x1" 0 0
    "Timeout waiting for swap" rfl rfl rfl

/-- Claim C10: when the seed file is absent, `load_or_create_seed` stores
the first 32 bytes of the freshly generated seed material at the path and
returns them; the stored seed has length 32, and a later call with the
same path (whatever its generator oracle would produce) returns exactly
the stored bytes, leaving the filesystem unchanged — so repeated calls
yield the same seed. -/
theorem load_or_create_seed_roundtrip (fs : String → Option (List Nat))
    (gen2 : Except String (List Nat)) (path : String) (bs : List Nat)
    (hnew : fs path = none) (hlen : 32 ≤ bs.length) :
    ∃ fs2 : String → Option (List Nat),
      load_or_create_seed fs (.ok bs) path = .ok (bs.take 32, fs2) ∧
      fs2 path = some (bs.take 32) ∧
      (bs.take 32).length = 32 ∧
      load_or_create_seed fs2 gen2 path = .ok (bs.take 32, fs2) := by
  have hl32 : (bs.take 32).length = 32 := by
    rw [List.length_take]; omega
  refine ⟨fun p => if p = path then some (bs.take 32) else fs p,
    ?_, ?_, hl32, ?_⟩
  · simp [load_or_create_seed, hnew, hl32]
  · simp
  · simp [load_or_create_seed, hl32, List.take_take]

/-- Claim C10, witness: a fresh 64-byte seed material round-trips through
an empty filesystem; the second call ignores its generator entirely. -/
theorem load_or_create_seed_roundtrip_witness :
    ∃ fs2 : String → Option (List Nat),
      load_or_create_seed (fun _ => none) (.ok (List.range 64))
          "creds/alice/seed" = .ok ((List.range 64).take 32, fs2) ∧
      fs2 "creds/alice/seed" = some ((List.range 64).take 32) ∧
      ((List.range 64).take 32).length = 32 ∧
      load_or_create_seed fs2 (.error "generator unused")
          "creds/alice/seed" = .ok ((List.range 64).take 32, fs2) :=
  load_or_create_seed_roundtrip (fun _ => none) (.error "generator unused")
    "creds/alice/seed" (List.range 64) rfl (by decide)

end Peerswap
